import Mathlib

/-!
Verification of the profile-sync handlers and the delivery-record gateway
of the `aplicativo` repository, as a shallow embedding in Lean 4.

The repository has three source files:
* `supabase/functions/sync-user-profile/index.ts` — a Deno edge function
  (CORS origin `app.rotaspeed.com.br`), here `syncHandlerEdge1`;
* an unnamed second Deno edge-function variant (CORS origin
  `aplicativo-iota.vercel.app`), here `syncHandlerEdge2`;
* an unnamed file holding the client-side Supabase service
  (`mapDBStatusToPackageStatus`, `mapPackageStatusToDBStatus`,
  `addEntrega`, `addMultipleEntregas`, `updateEntregaStatus`,
  `updateMultipleEntregasOptimization`, …) and a Next.js API route
  reimplementing the sync handler, here `syncHandlerNext`.

Store interactions are modelled by passing the outcome of each Supabase
call as an argument; each handler returns both its HTTP response (inside
`Except`, whose `.error` constructor models a JavaScript exception
propagating uncaught out of the handler) and the list of store accesses
it performed, so that "no store access" / "no write" claims are statable.
-/

namespace Aplicativo

/-- Status translation, forward direction, from the source:
`mapDBStatusToPackageStatus` switches on the persisted status string and
defaults to `"pending"` (with a console warning) on anything else.
Statuses are strings in the embedding because the TypeScript `default:`
branches accept arbitrary strings beyond the declared literal unions. -/
def mapDBStatusToPackageStatus (dbStatus : String) : String :=
  match dbStatus with
  | "pendente" => "pending"
  | "em_rota" => "in_transit"
  | "entregue" => "delivered"
  | "cancelada" => "cancelled"
  | "nao_entregue" => "undeliverable"
  | _ => "pending"

/-- Status translation, reverse direction, from the source:
`mapPackageStatusToDBStatus` switches on the application status string;
the application-only values `"parsed"` and `"error"` fall through to
`"pendente"`, and the `default:` branch also returns `"pendente"`. -/
def mapPackageStatusToDBStatus (packageStatus : String) : String :=
  match packageStatus with
  | "pending" => "pendente"
  | "in_transit" => "em_rota"
  | "delivered" => "entregue"
  | "cancelled" => "cancelada"
  | "undeliverable" => "nao_entregue"
  | "parsed" => "pendente"
  | "error" => "pendente"
  | _ => "pendente"

/-- The five persisted status values of the delivery table. -/
def dbStatusValues : List String :=
  ["pendente", "em_rota", "entregue", "cancelada", "nao_entregue"]

/-- The seven application status values (`PackageInfo['status']`). -/
def packageStatusValues : List String :=
  ["pending", "in_transit", "delivered", "cancelled", "undeliverable",
   "parsed", "error"]

end Aplicativo

namespace Aplicativo

/-- Wire-level delivery record (`EntregaDbRecord`). The declared field
set comes from the `types` module the source imports, which is not part
of the repository; the fields used here are the five the source's
`mapDbRecordToPackageInfo` destructures by name together with the
`...rest` fields enumerated in the spec's data model (owner id, optimized
order index, route id, delivery notes, creation/update timestamps). -/
structure EntregaDbRecord where
  id : String
  user_id : String
  full_address : String
  recipient_name : Option String
  original_input : Option String
  input_type : Option String
  status : String
  optimized_order : Option Int
  route_id : Option String
  delivery_notes : Option String
  created_at : String
  updated_at : String
deriving DecidableEq

/-- Application-facing delivery record (`PackageInfo`): same entity with
the destructured fields renamed to camelCase and the rest spread
unchanged. -/
structure PackageInfo where
  id : String
  user_id : String
  fullAddress : String
  recipientName : Option String
  originalInput : Option String
  inputType : Option String
  status : String
  optimized_order : Option Int
  route_id : Option String
  delivery_notes : Option String
  created_at : String
  updated_at : String
deriving DecidableEq

/-- `mapDbRecordToPackageInfo` from the source: renames the snake_case
fields, translates the status, and turns a falsy `input_type` (absent or
empty string) into an absent `inputType`. -/
def mapDbRecordToPackageInfo (dbRecord : EntregaDbRecord) : PackageInfo :=
  { id := dbRecord.id
    user_id := dbRecord.user_id
    fullAddress := dbRecord.full_address
    recipientName := dbRecord.recipient_name
    originalInput := dbRecord.original_input
    inputType := dbRecord.input_type.bind (fun s => if s = "" then none else some s)
    status := mapDBStatusToPackageStatus dbRecord.status
    optimized_order := dbRecord.optimized_order
    route_id := dbRecord.route_id
    delivery_notes := dbRecord.delivery_notes
    created_at := dbRecord.created_at
    updated_at := dbRecord.updated_at }

/-- A Supabase error object as surfaced in the `error` field of a reply:
a message and a Postgres/PostgREST code. -/
structure StoreErr where
  message : String
  code : String
deriving DecidableEq

/-- The `{data, error}` reply of one Supabase query-builder call. -/
structure StoreReply (α : Type) where
  data : Option α
  error : Option StoreErr
deriving DecidableEq

/-- The insert payload of the delivery gateway (`EntregaData`): the
application shape minus the store-generated fields, with owner id, a
persisted-vocabulary status, and the optional routing fields. -/
structure EntregaData where
  user_id : String
  fullAddress : String
  recipientName : Option String
  originalInput : Option String
  inputType : Option String
  status : String
  optimized_order : Option Int
  route_id : Option String
  delivery_notes : Option String
deriving DecidableEq

/-- `addEntrega` from the source: one insert-and-select call whose reply
is passed in; a store error is thrown (`Except.error`), otherwise the
returned row, when present, is translated, and an absent row yields
`none`. -/
def addEntrega (entregaData : EntregaData) (reply : StoreReply EntregaDbRecord) :
    Except StoreErr (Option PackageInfo) :=
  match reply.error with
  | some e => .error e
  | none => .ok (reply.data.map mapDbRecordToPackageInfo)

/-- `addMultipleEntregas` from the source: empty input returns `[]`
before any store interaction; otherwise a single bulk insert-and-select
call on the whole batch, a store error is thrown, and the returned rows
(or `[]` when the reply carries no rows) are translated. The second
component lists the bulk calls issued, each as its batch payload. -/
def addMultipleEntregas
    (store : List EntregaData → StoreReply (List EntregaDbRecord))
    (entregasData : List EntregaData) :
    Except StoreErr (List PackageInfo) × List (List EntregaData) :=
  if entregasData.length = 0 then (.ok [], [])
  else
    let reply := store entregasData
    match reply.error with
    | some e => (.error e, [entregasData])
    | none =>
      match reply.data with
      | some rows => (.ok (rows.map mapDbRecordToPackageInfo), [entregasData])
      | none => (.ok [], [entregasData])

/-- The update payload built by `updateEntregaStatus`: the status always,
the optimized-order field only when an order value was supplied. -/
structure UpdatePayload where
  status : String
  optimized_order : Option Int
deriving DecidableEq

/-- `updateEntregaStatus` from the source: builds the payload, issues one
update-and-select call on the record id (the store's reply to each id and
payload is the function `store`), throws on a store error, translates the
returned row, and returns `none` when the store reports neither an error
nor a row. -/
def updateEntregaStatus
    (store : String → UpdatePayload → StoreReply EntregaDbRecord)
    (entregaId : String) (status : String) (order : Option Int) :
    Except StoreErr (Option PackageInfo) :=
  let updatePayload : UpdatePayload := { status := status, optimized_order := order }
  let reply := store entregaId updatePayload
  match reply.error with
  | some e => .error e
  | none => .ok (reply.data.map mapDbRecordToPackageInfo)

/-- One element of the batch passed to
`updateMultipleEntregasOptimization`. -/
structure OptimizationUpdate where
  id : String
  optimized_order : Int
  route_id : String
  status : String
deriving DecidableEq

/-- The `for (const update of updates)` loop of
`updateMultipleEntregasOptimization`, with the accumulated `results`
array made explicit: a store error skips the record, a reply carrying a
row appends its translation. -/
def optimizationLoop
    (store : OptimizationUpdate → StoreReply EntregaDbRecord) :
    List OptimizationUpdate → List PackageInfo → List PackageInfo
  | [], results => results
  | update :: rest, results =>
    let reply := store update
    match reply.error with
    | some _ => optimizationLoop store rest results
    | none =>
      match reply.data with
      | some d => optimizationLoop store rest (results ++ [mapDbRecordToPackageInfo d])
      | none => optimizationLoop store rest results

/-- `updateMultipleEntregasOptimization` from the source: empty input
returns `[]`; otherwise each update is applied one at a time in list
order through the loop above. -/
def updateMultipleEntregasOptimization
    (store : OptimizationUpdate → StoreReply EntregaDbRecord)
    (updates : List OptimizationUpdate) : List PackageInfo :=
  if updates.length = 0 then [] else optimizationLoop store updates []

/-- The JSON body of a sync request: the three fields the handlers
destructure. Absent (`undefined`/`null`) fields are `none`. -/
structure ReqBody where
  userId : Option String
  email : Option String
  nome : Option String
deriving DecidableEq

/-- JavaScript falsiness of a destructured string field, as tested by
`!userId || !email`: absent, or the empty string. -/
def falsyField : Option String → Bool
  | none => true
  | some s => s = ""

/-- The JSON body of a handler response. -/
inductive RespBody where
  /-- the literal `"ok"` body of the edge handlers' OPTIONS reply -/
  | plain (text : String)
  /-- `{message}` -/
  | message (m : String)
  /-- `{error, detail?}` -/
  | failure (error : String) (detail : Option String)
  /-- `{success: true}` (Next.js route) -/
  | successTrue
  /-- `res.end()` with no body (Next.js OPTIONS reply) -/
  | empty
deriving DecidableEq

/-- An HTTP response: status code and JSON body. CORS headers are fixed
per variant and carry no logic, so they are not modelled. -/
structure Response where
  status : Nat
  body : RespBody
deriving DecidableEq

/-- Outcome of one Supabase call as observed by the JavaScript caller:
either a `{data, error}` reply, or an exception thrown by the awaited
call itself. -/
inductive CallOutcome (α : Type) where
  | reply (data : Option α) (error : Option StoreErr)
  | thrown (exn : String)
deriving DecidableEq

/-- The profile row returned by the `usuarios_rotaspeed` lookup. The
handlers only test its presence (`!existingUser`) and never read a
field, so its contents stay abstract. -/
structure UserRow where
deriving DecidableEq

/-- One store access performed by a handler, over the row type `ρ` of
the variant's insert payload. -/
inductive Access (ρ : Type) where
  | lookup (id : String)
  | insert (row : ρ)
deriving DecidableEq

/-- Whether a store access is a write. -/
def Access.isWrite {ρ : Type} : Access ρ → Bool
  | .lookup _ => false
  | .insert _ => true

/-- The default profile row inserted by
`supabase/functions/sync-user-profile/index.ts`, with that variant's
column names. -/
structure InsertRowV1 where
  id : String
  email : String
  nome : String
  plano_nome : String
  status_plano : String
  entregas_max_diarias : Nat
  entregas_dia_corrente : Nat
  creditos_disponiveis : Nat
  entregas_gratis_utilizadas : Nat
  data_ultima_entrega_dia : String
deriving DecidableEq

/-- The default profile row inserted by the second edge variant and by
the Next.js API route, with their shared column names. -/
structure InsertRowV2 where
  id : String
  email : String
  nome : String
  plano_nome : String
  plano_ativo : Bool
  entregas_dia_max : Nat
  entregas_hoje : Nat
  saldo_creditos : Nat
  entregas_gratis_utilizadas : Nat
  ultima_atualizacao : String
deriving DecidableEq

/-- `new Date().toISOString().split("T")[0]`: the calendar-date part of
the ISO timestamp `now` of the current instant — the characters before
the first `'T'` (the whole string when no `'T'` occurs, as for
JavaScript `split` with a single-character separator). -/
def isoDatePart (now : String) : String :=
  String.mk (now.toList.takeWhile (fun c => c ≠ 'T'))

/-- A request as seen by the edge handlers: the method and the result of
`await req.json()`; `Except.error` models a JSON parse failure. -/
structure EdgeRequest where
  method : String
  body : Except Unit ReqBody

/-- The sync handler of `supabase/functions/sync-user-profile/index.ts`:
OPTIONS preflight, 405 on non-POST, 400 on a parse failure or missing
required fields, then lookup (500 with detail on a lookup error), then,
when no row exists, the default insert (500 with detail on an insert
error), and 200 otherwise. Returns the response — `Except.error` meaning
a JavaScript exception left the handler uncaught — and the store
accesses performed, in order. -/
def syncHandlerEdge1 (req : EdgeRequest)
    (lookupOutcome : CallOutcome UserRow) (insertOutcome : CallOutcome Unit)
    (now : String) : Except String Response × List (Access InsertRowV1) :=
  if req.method = "OPTIONS" then
    (.ok ⟨200, .plain "ok"⟩, [])
  else if req.method ≠ "POST" then
    (.ok ⟨405, .failure "Método não permitido" none⟩, [])
  else
    match req.body with
    | .error _ => (.ok ⟨400, .failure "JSON inválido" none⟩, [])
    | .ok body =>
      if falsyField body.userId || falsyField body.email then
        (.ok ⟨400, .failure "Campos obrigatórios ausentes" none⟩, [])
      else
        let userId := body.userId.getD ""
        match lookupOutcome with
        | .thrown exn => (.error exn, [.lookup userId])
        | .reply existingUser fetchErr =>
          match fetchErr with
          | some e =>
            (.ok ⟨500, .failure "Erro ao buscar usuário" (some e.message)⟩,
             [.lookup userId])
          | none =>
            match existingUser with
            | some _ =>
              (.ok ⟨200, .message "Perfil sincronizado com sucesso"⟩, [.lookup userId])
            | none =>
              let row : InsertRowV1 :=
                { id := userId
                  email := body.email.getD ""
                  nome := body.nome.getD "Entregador"
                  plano_nome := "Start"
                  status_plano := "ativo"
                  entregas_max_diarias := 10
                  entregas_dia_corrente := 0
                  creditos_disponiveis := 0
                  entregas_gratis_utilizadas := 0
                  data_ultima_entrega_dia := isoDatePart now }
              match insertOutcome with
              | .thrown exn => (.error exn, [.lookup userId, .insert row])
              | .reply _ insertErr =>
                match insertErr with
                | some e =>
                  (.ok ⟨500, .failure "Erro ao criar usuário" (some e.message)⟩,
                   [.lookup userId, .insert row])
                | none =>
                  (.ok ⟨200, .message "Perfil sincronizado com sucesso"⟩,
                   [.lookup userId, .insert row])

/-- The second edge-function variant of the sync handler: same control
flow as `syncHandlerEdge1`, but its 500 responses carry no detail field,
and its default insert uses the `InsertRowV2` column names (boolean
`plano_ativo`, `ultima_atualizacao` still the calendar-date part). -/
def syncHandlerEdge2 (req : EdgeRequest)
    (lookupOutcome : CallOutcome UserRow) (insertOutcome : CallOutcome Unit)
    (now : String) : Except String Response × List (Access InsertRowV2) :=
  if req.method = "OPTIONS" then
    (.ok ⟨200, .plain "ok"⟩, [])
  else if req.method ≠ "POST" then
    (.ok ⟨405, .failure "Método não permitido" none⟩, [])
  else
    match req.body with
    | .error _ => (.ok ⟨400, .failure "JSON inválido" none⟩, [])
    | .ok body =>
      if falsyField body.userId || falsyField body.email then
        (.ok ⟨400, .failure "Campos obrigatórios ausentes" none⟩, [])
      else
        let userId := body.userId.getD ""
        match lookupOutcome with
        | .thrown exn => (.error exn, [.lookup userId])
        | .reply existingUser fetchErr =>
          match fetchErr with
          | some _ =>
            (.ok ⟨500, .failure "Erro ao buscar usuário" none⟩, [.lookup userId])
          | none =>
            match existingUser with
            | some _ =>
              (.ok ⟨200, .message "Perfil sincronizado com sucesso"⟩, [.lookup userId])
            | none =>
              let row : InsertRowV2 :=
                { id := userId
                  email := body.email.getD ""
                  nome := body.nome.getD "Entregador"
                  plano_nome := "Start"
                  plano_ativo := true
                  entregas_dia_max := 10
                  entregas_hoje := 0
                  saldo_creditos := 0
                  entregas_gratis_utilizadas := 0
                  ultima_atualizacao := isoDatePart now }
              match insertOutcome with
              | .thrown exn => (.error exn, [.lookup userId, .insert row])
              | .reply _ insertErr =>
                match insertErr with
                | some _ =>
                  (.ok ⟨500, .failure "Erro ao criar usuário" none⟩,
                   [.lookup userId, .insert row])
                | none =>
                  (.ok ⟨200, .message "Perfil sincronizado com sucesso"⟩,
                   [.lookup userId, .insert row])

/-- A request as seen by the Next.js API route: `req.body` arrives
already parsed by the framework, so there is no parse-failure branch. -/
structure NextRequest where
  method : String
  body : ReqBody

/-- The Next.js API-route reimplementation of the sync handler: OPTIONS,
405, 400 validation, then a `try` block around lookup and insert whose
`catch` converts a thrown exception into a 500 `"Erro interno"` response
(with the exception message as detail); lookup and insert store errors
become 500 responses carrying the store error message; the success reply
is 200 `{success: true}`; its default insert sets `ultima_atualizacao`
to the full `toISOString()` timestamp, not the calendar-date part. -/
def syncHandlerNext (req : NextRequest)
    (lookupOutcome : CallOutcome UserRow) (insertOutcome : CallOutcome Unit)
    (now : String) : Except String Response × List (Access InsertRowV2) :=
  if req.method = "OPTIONS" then
    (.ok ⟨200, .empty⟩, [])
  else if req.method ≠ "POST" then
    (.ok ⟨405, .failure "Método não permitido" none⟩, [])
  else if falsyField req.body.userId || falsyField req.body.email then
    (.ok ⟨400, .failure "userId e email são obrigatórios" none⟩, [])
  else
    let userId := req.body.userId.getD ""
    match lookupOutcome with
    | .thrown exn =>
      (.ok ⟨500, .failure "Erro interno" (some exn)⟩, [.lookup userId])
    | .reply existingUser fetchErr =>
      match fetchErr with
      | some e => (.ok ⟨500, .failure e.message none⟩, [.lookup userId])
      | none =>
        match existingUser with
        | some _ => (.ok ⟨200, .successTrue⟩, [.lookup userId])
        | none =>
          let row : InsertRowV2 :=
            { id := userId
              email := req.body.email.getD ""
              nome := req.body.nome.getD "Entregador"
              plano_nome := "Start"
              plano_ativo := true
              entregas_dia_max := 10
              entregas_hoje := 0
              saldo_creditos := 0
              entregas_gratis_utilizadas := 0
              ultima_atualizacao := now }
          match insertOutcome with
          | .thrown exn =>
            (.ok ⟨500, .failure "Erro interno" (some exn)⟩,
             [.lookup userId, .insert row])
          | .reply _ insertErr =>
            match insertErr with
            | some e =>
              (.ok ⟨500, .failure e.message none⟩, [.lookup userId, .insert row])
            | none =>
              (.ok ⟨200, .successTrue⟩, [.lookup userId, .insert row])

/-- C2: for each of the five canonical persisted status values, the
forward translation followed by the reverse translation returns the
original persisted value. -/
theorem roundtrip_canonical_statuses :
    mapPackageStatusToDBStatus (mapDBStatusToPackageStatus "pendente") = "pendente" ∧
    mapPackageStatusToDBStatus (mapDBStatusToPackageStatus "em_rota") = "em_rota" ∧
    mapPackageStatusToDBStatus (mapDBStatusToPackageStatus "entregue") = "entregue" ∧
    mapPackageStatusToDBStatus (mapDBStatusToPackageStatus "cancelada") = "cancelada" ∧
    mapPackageStatusToDBStatus (mapDBStatusToPackageStatus "nao_entregue") = "nao_entregue" := by
  refine ⟨rfl, rfl, rfl, rfl, rfl⟩

/-- C3: the reverse translation sends the application-only values
`"parsed"` and `"error"`, and any value outside the application
enumeration, to `"pendente"`; the forward translation sends any value
outside the five persisted values to `"pending"`. -/
theorem status_defaulting (s t : String)
    (hs : s ∉ packageStatusValues) (ht : t ∉ dbStatusValues) :
    mapPackageStatusToDBStatus "parsed" = "pendente" ∧
    mapPackageStatusToDBStatus "error" = "pendente" ∧
    mapPackageStatusToDBStatus s = "pendente" ∧
    mapDBStatusToPackageStatus t = "pending" := by
  refine ⟨rfl, rfl, ?_, ?_⟩
  · unfold mapPackageStatusToDBStatus
    split <;> simp_all [packageStatusValues]
  · unfold mapDBStatusToPackageStatus
    split <;> simp_all [dbStatusValues]

/-- Witness for `status_defaulting` at the unrecognized values
`"bogus"` and `"weird"`. -/
theorem status_defaulting_witness :
    ("bogus" ∉ packageStatusValues ∧ "weird" ∉ dbStatusValues) ∧
    (mapPackageStatusToDBStatus "parsed" = "pendente" ∧
     mapPackageStatusToDBStatus "error" = "pendente" ∧
     mapPackageStatusToDBStatus "bogus" = "pendente" ∧
     mapDBStatusToPackageStatus "weird" = "pending") :=
  ⟨⟨by decide, by decide⟩, status_defaulting "bogus" "weird" (by decide) (by decide)⟩

/-- C1 (code behavior at the failing input): a sync request whose lookup
finds no row and whose insert then fails with the Postgres duplicate-key
error (code 23505, the concurrent-insert race) gets a 500 error
response from the `index.ts` edge handler, not the 200 success response
the spec requires. -/
theorem duplicate_key_insert_returns_500 :
    (syncHandlerEdge1 ⟨"POST", .ok ⟨some "user-1", some "a@b.c", none⟩⟩
        (.reply none none)
        (.reply none (some ⟨"duplicate key value violates unique constraint", "23505"⟩))
        "2026-10-11T00:00:00.000Z").1 =
      .ok ⟨500, .failure "Erro ao criar usuário"
            (some "duplicate key value violates unique constraint")⟩ := rfl

/-- C5: when the lookup finds an existing profile row, every handler
variant returns its 200 success response having performed only the
lookup — in particular no write — so a repeated sync for the same user
id is an idempotent no-op. -/
theorem existing_profile_sync_is_noop (body : ReqBody) (row : UserRow)
    (insO : CallOutcome Unit) (now : String)
    (hu : falsyField body.userId = false) (he : falsyField body.email = false) :
    syncHandlerEdge1 ⟨"POST", .ok body⟩ (.reply (some row) none) insO now =
      (.ok ⟨200, .message "Perfil sincronizado com sucesso"⟩,
       [.lookup (body.userId.getD "")]) ∧
    syncHandlerEdge2 ⟨"POST", .ok body⟩ (.reply (some row) none) insO now =
      (.ok ⟨200, .message "Perfil sincronizado com sucesso"⟩,
       [.lookup (body.userId.getD "")]) ∧
    syncHandlerNext ⟨"POST", body⟩ (.reply (some row) none) insO now =
      (.ok ⟨200, .successTrue⟩, [.lookup (body.userId.getD "")]) ∧
    (syncHandlerEdge1 ⟨"POST", .ok body⟩ (.reply (some row) none) insO now).2.filter
        Access.isWrite = [] ∧
    (syncHandlerEdge2 ⟨"POST", .ok body⟩ (.reply (some row) none) insO now).2.filter
        Access.isWrite = [] ∧
    (syncHandlerNext ⟨"POST", body⟩ (.reply (some row) none) insO now).2.filter
        Access.isWrite = [] := by
  refine ⟨?_, ?_, ?_, ?_, ?_, ?_⟩ <;>
    simp [syncHandlerEdge1, syncHandlerEdge2, syncHandlerNext, hu, he,
          List.filter, Access.isWrite]

/-- Witness for `existing_profile_sync_is_noop` at a concrete request. -/
theorem existing_profile_sync_is_noop_witness :
    (falsyField (some "user-1") = false ∧ falsyField (some "a@b.c") = false) ∧
    (syncHandlerEdge1 ⟨"POST", .ok ⟨some "user-1", some "a@b.c", none⟩⟩
        (.reply (some ⟨⟩) none) (.reply none none) "2026-10-11T00:00:00.000Z" =
      (.ok ⟨200, .message "Perfil sincronizado com sucesso"⟩, [.lookup "user-1"]) ∧
     syncHandlerEdge2 ⟨"POST", .ok ⟨some "user-1", some "a@b.c", none⟩⟩
        (.reply (some ⟨⟩) none) (.reply none none) "2026-10-11T00:00:00.000Z" =
      (.ok ⟨200, .message "Perfil sincronizado com sucesso"⟩, [.lookup "user-1"]) ∧
     syncHandlerNext ⟨"POST", ⟨some "user-1", some "a@b.c", none⟩⟩
        (.reply (some ⟨⟩) none) (.reply none none) "2026-10-11T00:00:00.000Z" =
      (.ok ⟨200, .successTrue⟩, [.lookup "user-1"]) ∧
     (syncHandlerEdge1 ⟨"POST", .ok ⟨some "user-1", some "a@b.c", none⟩⟩
        (.reply (some ⟨⟩) none) (.reply none none) "2026-10-11T00:00:00.000Z").2.filter
          Access.isWrite = [] ∧
     (syncHandlerEdge2 ⟨"POST", .ok ⟨some "user-1", some "a@b.c", none⟩⟩
        (.reply (some ⟨⟩) none) (.reply none none) "2026-10-11T00:00:00.000Z").2.filter
          Access.isWrite = [] ∧
     (syncHandlerNext ⟨"POST", ⟨some "user-1", some "a@b.c", none⟩⟩
        (.reply (some ⟨⟩) none) (.reply none none) "2026-10-11T00:00:00.000Z").2.filter
          Access.isWrite = []) :=
  ⟨⟨rfl, rfl⟩,
   existing_profile_sync_is_noop ⟨some "user-1", some "a@b.c", none⟩ ⟨⟩
     (.reply none none) "2026-10-11T00:00:00.000Z" rfl rfl⟩

/-- C6: a POST sync request missing `userId` or `email` (absent or
empty, per JavaScript falsiness) gets a 400 missing-required-fields
response from every handler variant, with no store access performed. -/
theorem missing_fields_400_no_store_access (body : ReqBody)
    (lookupO : CallOutcome UserRow) (insO : CallOutcome Unit) (now : String)
    (hmissing : falsyField body.userId = true ∨ falsyField body.email = true) :
    syncHandlerEdge1 ⟨"POST", .ok body⟩ lookupO insO now =
      (.ok ⟨400, .failure "Campos obrigatórios ausentes" none⟩, []) ∧
    syncHandlerEdge2 ⟨"POST", .ok body⟩ lookupO insO now =
      (.ok ⟨400, .failure "Campos obrigatórios ausentes" none⟩, []) ∧
    syncHandlerNext ⟨"POST", body⟩ lookupO insO now =
      (.ok ⟨400, .failure "userId e email são obrigatórios" none⟩, []) := by
  rcases hmissing with h | h <;>
    exact ⟨by simp [syncHandlerEdge1, h], by simp [syncHandlerEdge2, h],
           by simp [syncHandlerNext, h]⟩

/-- Witness for `missing_fields_400_no_store_access`: a request carrying
an email but no user id. -/
theorem missing_fields_400_no_store_access_witness :
    (falsyField (ReqBody.mk none (some "a@b.c") none).userId = true ∨
     falsyField (ReqBody.mk none (some "a@b.c") none).email = true) ∧
    (syncHandlerEdge1 ⟨"POST", .ok ⟨none, some "a@b.c", none⟩⟩
        (.reply none none) (.reply none none) "2026-10-11T00:00:00.000Z" =
      (.ok ⟨400, .failure "Campos obrigatórios ausentes" none⟩, []) ∧
     syncHandlerEdge2 ⟨"POST", .ok ⟨none, some "a@b.c", none⟩⟩
        (.reply none none) (.reply none none) "2026-10-11T00:00:00.000Z" =
      (.ok ⟨400, .failure "Campos obrigatórios ausentes" none⟩, []) ∧
     syncHandlerNext ⟨"POST", ⟨none, some "a@b.c", none⟩⟩
        (.reply none none) (.reply none none) "2026-10-11T00:00:00.000Z" =
      (.ok ⟨400, .failure "userId e email são obrigatórios" none⟩, [])) :=
  ⟨Or.inl rfl,
   missing_fields_400_no_store_access ⟨none, some "a@b.c", none⟩
     (.reply none none) (.reply none none) "2026-10-11T00:00:00.000Z" (Or.inl rfl)⟩

/-- C4 (counterexample): at a concrete new-user request, the Next.js
API-route handler — one of the claim's cited implementations — inserts a
row whose last-update field is the full ISO timestamp, which is not the
calendar-date value the claim requires. -/
theorem next_insert_full_timestamp :
    (syncHandlerNext ⟨"POST", ⟨some "user-1", some "a@b.c", none⟩⟩
        (.reply none none) (.reply none none) "2026-10-11T12:34:56.000Z").2.filter
      Access.isWrite =
      [.insert ⟨"user-1", "a@b.c", "Entregador", "Start", true, 10, 0, 0, 0,
                "2026-10-11T12:34:56.000Z"⟩] ∧
    "2026-10-11T12:34:56.000Z" ≠ isoDatePart "2026-10-11T12:34:56.000Z" :=
  ⟨rfl, by decide⟩

/-- C4 amended: on a valid new-user sync request (lookup succeeds with
no row), each handler variant performs exactly one insert, of a row with
the fixed defaults — plan `"Start"`, plan active, daily quota 10,
today's-usage 0, credit balance 0, free-deliveries-used 0; the two
edge-function variants set the last-update field to the current calendar
date, while the Next.js API-route variant sets it to the full current
timestamp. -/
theorem new_user_insert_defaults (body : ReqBody)
    (insO : CallOutcome Unit) (now : String)
    (hu : falsyField body.userId = false) (he : falsyField body.email = false) :
    (syncHandlerEdge1 ⟨"POST", .ok body⟩ (.reply none none) insO now).2 =
      [.lookup (body.userId.getD ""),
       .insert { id := body.userId.getD ""
                 email := body.email.getD ""
                 nome := body.nome.getD "Entregador"
                 plano_nome := "Start"
                 status_plano := "ativo"
                 entregas_max_diarias := 10
                 entregas_dia_corrente := 0
                 creditos_disponiveis := 0
                 entregas_gratis_utilizadas := 0
                 data_ultima_entrega_dia := isoDatePart now }] ∧
    (syncHandlerEdge2 ⟨"POST", .ok body⟩ (.reply none none) insO now).2 =
      [.lookup (body.userId.getD ""),
       .insert { id := body.userId.getD ""
                 email := body.email.getD ""
                 nome := body.nome.getD "Entregador"
                 plano_nome := "Start"
                 plano_ativo := true
                 entregas_dia_max := 10
                 entregas_hoje := 0
                 saldo_creditos := 0
                 entregas_gratis_utilizadas := 0
                 ultima_atualizacao := isoDatePart now }] ∧
    (syncHandlerNext ⟨"POST", body⟩ (.reply none none) insO now).2 =
      [.lookup (body.userId.getD ""),
       .insert { id := body.userId.getD ""
                 email := body.email.getD ""
                 nome := body.nome.getD "Entregador"
                 plano_nome := "Start"
                 plano_ativo := true
                 entregas_dia_max := 10
                 entregas_hoje := 0
                 saldo_creditos := 0
                 entregas_gratis_utilizadas := 0
                 ultima_atualizacao := now }] := by
  refine ⟨?_, ?_, ?_⟩ <;>
    cases insO with
    | thrown exn => simp [syncHandlerEdge1, syncHandlerEdge2, syncHandlerNext, hu, he]
    | reply d err =>
      cases err <;>
        simp [syncHandlerEdge1, syncHandlerEdge2, syncHandlerNext, hu, he]

/-- Witness for `new_user_insert_defaults` at a concrete request. -/
theorem new_user_insert_defaults_witness :
    (falsyField (some "user-1") = false ∧ falsyField (some "a@b.c") = false) ∧
    ((syncHandlerEdge1 ⟨"POST", .ok ⟨some "user-1", some "a@b.c", none⟩⟩
        (.reply none none) (.reply none none) "2026-10-11T00:00:00.000Z").2 =
      [.lookup "user-1",
       .insert ⟨"user-1", "a@b.c", "Entregador", "Start", "ativo", 10, 0, 0, 0,
                "2026-10-11"⟩] ∧
     (syncHandlerEdge2 ⟨"POST", .ok ⟨some "user-1", some "a@b.c", none⟩⟩
        (.reply none none) (.reply none none) "2026-10-11T00:00:00.000Z").2 =
      [.lookup "user-1",
       .insert ⟨"user-1", "a@b.c", "Entregador", "Start", true, 10, 0, 0, 0,
                "2026-10-11"⟩] ∧
     (syncHandlerNext ⟨"POST", ⟨some "user-1", some "a@b.c", none⟩⟩
        (.reply none none) (.reply none none) "2026-10-11T00:00:00.000Z").2 =
      [.lookup "user-1",
       .insert ⟨"user-1", "a@b.c", "Entregador", "Start", true, 10, 0, 0, 0,
                "2026-10-11T00:00:00.000Z"⟩]) :=
  ⟨⟨rfl, rfl⟩,
   new_user_insert_defaults ⟨some "user-1", some "a@b.c", none⟩
     (.reply none none) "2026-10-11T00:00:00.000Z" rfl rfl⟩

/-- The optimization loop with accumulator `acc` returns `acc` followed
by the translations of exactly the updates whose store call replied
without an error and with a row, in list order. -/
theorem optimizationLoop_eq_filterMap
    (store : OptimizationUpdate → StoreReply EntregaDbRecord)
    (updates : List OptimizationUpdate) (acc : List PackageInfo) :
    optimizationLoop store updates acc =
      acc ++ updates.filterMap (fun update =>
        match (store update).error with
        | some _ => none
        | none => (store update).data.map mapDbRecordToPackageInfo) := by
  induction updates generalizing acc with
  | nil => simp [optimizationLoop]
  | cons u rest ih =>
    simp only [optimizationLoop, List.filterMap_cons]
    rcases he : (store u).error with _ | e
    · rcases hd : (store u).data with _ | d
      · simp [he, hd, ih]
      · simp [he, hd, ih]
    · simp [he, ih]

/-- C7: `updateMultipleEntregasOptimization` applies the updates one at
a time in list order; an update whose store call reports an error is
skipped without aborting or discarding earlier results, and the value
returned is exactly the translated rows of the updates that succeeded,
in the order in which they succeeded. -/
theorem bulk_optimization_partial_success
    (store : OptimizationUpdate → StoreReply EntregaDbRecord)
    (updates : List OptimizationUpdate) :
    updateMultipleEntregasOptimization store updates =
      updates.filterMap (fun update =>
        match (store update).error with
        | some _ => none
        | none => (store update).data.map mapDbRecordToPackageInfo) := by
  cases updates with
  | nil => rfl
  | cons u rest =>
    simp only [updateMultipleEntregasOptimization, List.length_cons]
    rw [if_neg (by simp)]
    simpa using optimizationLoop_eq_filterMap store (u :: rest) []

/-- C8 (counterexample): at a concrete valid sync request whose lookup
call throws, the `index.ts` edge handler — one of the claim's cited
implementations — lets the exception propagate uncaught out of the
handler instead of converting it into a 500 response. -/
theorem uncaught_exception_edge_counterexample :
    (syncHandlerEdge1 ⟨"POST", .ok ⟨some "user-1", some "a@b.c", none⟩⟩
        (.thrown "TypeError: Failed to fetch") (.reply none none)
        "2026-10-11T00:00:00.000Z").1 =
      .error "TypeError: Failed to fetch" := rfl

/-- C8 amended: the Next.js API-route handler never lets an exception
escape — any exception thrown by its lookup or insert call is caught by
its `try`/`catch` and converted into the generic 500 `"Erro interno"`
response — while the two edge-function handlers propagate an exception
thrown by the lookup call uncaught out of the handler. -/
theorem exception_handling_amended (body : ReqBody) (req : NextRequest)
    (lookupO : CallOutcome UserRow) (insO : CallOutcome Unit) (now exn : String)
    (hu : falsyField body.userId = false) (he : falsyField body.email = false) :
    (∃ resp, (syncHandlerNext req lookupO insO now).1 = .ok resp) ∧
    (syncHandlerNext ⟨"POST", body⟩ (.thrown exn) insO now).1 =
      .ok ⟨500, .failure "Erro interno" (some exn)⟩ ∧
    (syncHandlerNext ⟨"POST", body⟩ (.reply none none) (.thrown exn) now).1 =
      .ok ⟨500, .failure "Erro interno" (some exn)⟩ ∧
    (syncHandlerEdge1 ⟨"POST", .ok body⟩ (.thrown exn) insO now).1 = .error exn ∧
    (syncHandlerEdge2 ⟨"POST", .ok body⟩ (.thrown exn) insO now).1 = .error exn := by
  refine ⟨?_, ?_, ?_, ?_, ?_⟩
  · unfold syncHandlerNext
    repeat' split
    all_goals exact ⟨_, rfl⟩
  · simp [syncHandlerNext, hu, he]
  · simp [syncHandlerNext, hu, he]
  · simp [syncHandlerEdge1, hu, he]
  · simp [syncHandlerEdge2, hu, he]

/-- Witness for `exception_handling_amended` at a concrete request and
exception. -/
theorem exception_handling_amended_witness :
    (falsyField (some "user-1") = false ∧ falsyField (some "a@b.c") = false) ∧
    ((∃ resp, (syncHandlerNext ⟨"GET", ⟨some "user-1", some "a@b.c", none⟩⟩
        (.reply none none) (.reply none none) "2026-10-11T00:00:00.000Z").1 =
          .ok resp) ∧
     (syncHandlerNext ⟨"POST", ⟨some "user-1", some "a@b.c", none⟩⟩
        (.thrown "TypeError: Failed to fetch") (.reply none none)
        "2026-10-11T00:00:00.000Z").1 =
       .ok ⟨500, .failure "Erro interno" (some "TypeError: Failed to fetch")⟩ ∧
     (syncHandlerNext ⟨"POST", ⟨some "user-1", some "a@b.c", none⟩⟩
        (.reply none none) (.thrown "TypeError: Failed to fetch")
        "2026-10-11T00:00:00.000Z").1 =
       .ok ⟨500, .failure "Erro interno" (some "TypeError: Failed to fetch")⟩ ∧
     (syncHandlerEdge1 ⟨"POST", .ok ⟨some "user-1", some "a@b.c", none⟩⟩
        (.thrown "TypeError: Failed to fetch") (.reply none none)
        "2026-10-11T00:00:00.000Z").1 = .error "TypeError: Failed to fetch" ∧
     (syncHandlerEdge2 ⟨"POST", .ok ⟨some "user-1", some "a@b.c", none⟩⟩
        (.thrown "TypeError: Failed to fetch") (.reply none none)
        "2026-10-11T00:00:00.000Z").1 = .error "TypeError: Failed to fetch") :=
  ⟨⟨rfl, rfl⟩,
   exception_handling_amended ⟨some "user-1", some "a@b.c", none⟩
     ⟨"GET", ⟨some "user-1", some "a@b.c", none⟩⟩ (.reply none none)
     (.reply none none) "2026-10-11T00:00:00.000Z" "TypeError: Failed to fetch"
     rfl rfl⟩

/-- C9: `addMultipleEntregas` on the empty list returns `[]` having
issued no store call, and on a non-empty list issues exactly one bulk
insert call, of the whole batch, and returns all rows of a successful
reply translated to the application shape. -/
theorem createMany_bulk_insert
    (store : List EntregaData → StoreReply (List EntregaDbRecord))
    (items : List EntregaData) (rows : List EntregaDbRecord)
    (hne : items ≠ [])
    (hok : store items = ⟨some rows, none⟩) :
    addMultipleEntregas store [] = (.ok [], []) ∧
    addMultipleEntregas store items =
      (.ok (rows.map mapDbRecordToPackageInfo), [items]) := by
  refine ⟨rfl, ?_⟩
  simp [addMultipleEntregas, hok, List.length_eq_zero, hne]

/-- Witness for `createMany_bulk_insert` on a one-element batch whose
bulk insert succeeds with an empty row list. -/
theorem createMany_bulk_insert_witness :
    ([(⟨"u1", "Rua A, 123", none, none, none, "pendente", none, none,
        none⟩ : EntregaData)] ≠ [] ∧
     (fun _ : List EntregaData =>
         (⟨some [], none⟩ : StoreReply (List EntregaDbRecord)))
       [⟨"u1", "Rua A, 123", none, none, none, "pendente", none, none, none⟩] =
       ⟨some [], none⟩) ∧
    (addMultipleEntregas
       (fun _ => ⟨some [], none⟩) [] = (.ok [], []) ∧
     addMultipleEntregas (fun _ => ⟨some [], none⟩)
       [⟨"u1", "Rua A, 123", none, none, none, "pendente", none, none, none⟩] =
       (.ok (([] : List EntregaDbRecord).map mapDbRecordToPackageInfo),
        [[⟨"u1", "Rua A, 123", none, none, none, "pendente", none, none, none⟩]])) :=
  ⟨⟨by simp, rfl⟩,
   createMany_bulk_insert (fun _ => ⟨some [], none⟩)
     [⟨"u1", "Rua A, 123", none, none, none, "pendente", none, none, none⟩]
     [] (by simp) rfl⟩

/-- C10: when the store reports neither an error nor a row, `addEntrega`
and `updateEntregaStatus` both return `null` (here `.ok none`) rather
than a `PackageInfo` and rather than throwing, so the declared
`create`/`updateStatus` contracts admit a null result. -/
theorem missing_row_returns_null (entregaData : EntregaData)
    (reply : StoreReply EntregaDbRecord)
    (store : String → UpdatePayload → StoreReply EntregaDbRecord)
    (entregaId status : String) (order : Option Int)
    (h1 : reply = ⟨none, none⟩)
    (h2 : store entregaId { status := status, optimized_order := order } =
            ⟨none, none⟩) :
    addEntrega entregaData reply = .ok none ∧
    updateEntregaStatus store entregaId status order = .ok none := by
  subst h1
  exact ⟨rfl, by simp [updateEntregaStatus, h2]⟩

/-- Witness for `missing_row_returns_null` at a concrete record, id and
status, against a store replying with no error and no row. -/
theorem missing_row_returns_null_witness :
    ((⟨none, none⟩ : StoreReply EntregaDbRecord) = ⟨none, none⟩ ∧
     (fun _ : String => fun _ : UpdatePayload =>
         (⟨none, none⟩ : StoreReply EntregaDbRecord)) "e1"
       { status := "entregue", optimized_order := none } = ⟨none, none⟩) ∧
    (addEntrega
       ⟨"u1", "Rua A, 123", none, none, none, "pendente", none, none, none⟩
       ⟨none, none⟩ = .ok none ∧
     updateEntregaStatus (fun _ _ => ⟨none, none⟩) "e1" "entregue" none =
       .ok none) :=
  ⟨⟨rfl, rfl⟩,
   missing_row_returns_null
     ⟨"u1", "Rua A, 123", none, none, none, "pendente", none, none, none⟩
     ⟨none, none⟩ (fun _ _ => ⟨none, none⟩) "e1" "entregue" none rfl rfl⟩

end Aplicativo
